import Mathlib

/-!
Shallow embedding of the stock-news dashboard's orchestration core
(`apiService` rate-limited request queue, retrying fetch wrapper,
`StockCache` tiered TTL cache, news pipeline, Gemini analysis fallback and
the news sentiment aggregator `analyzeSentiment`), together with theorems
settling the specification claims about them.

Modelling conventions:
* JavaScript numbers are embedded as exact rationals (`ℚ`) for sentiment
  scores and as integers (`Int`/`Nat`) for epoch-millisecond timestamps.
  IEEE-754 rounding noise is outside the model.
* ISO-8601 timestamp strings are represented by their epoch milliseconds:
  `new Date(e).toISOString()` is injective in `e` and
  `new Date(iso).getTime()` inverts it, so string keys/comparisons on ISO
  strings coincide with the integer keys/comparisons used here.
* Local calendar arithmetic (`getHours`, `setHours`, day truncation) is
  modelled at UTC offset zero on nonnegative epochs, where it agrees with
  `e % 86400000` and friends.
* `async` functions are embedded as pure functions of their inputs plus
  explicit parameters for the outcomes of their external calls
  (configuration presence, network result), and the single-threaded event
  loop of the request queue as a deterministic timed simulator.
-/

/-! ## Rate-limited request queue (apiService)

The source keeps a FIFO array `REQUEST_QUEUE`, a counter
`requestsThisSecond`, an anchor `lastRequestTime` and a quota
`MAX_REQUESTS_PER_SECOND = 30`.  `processQueue` first calls
`resetRequestCount` (reset the counter if at least one second passed since
the anchor, moving the anchor to `now`), then, if the counter is at the
quota, re-schedules itself one second later (after which the reset is
guaranteed to fire, because the anchor never exceeds the current time);
otherwise it shifts the next task off the queue, increments the counter and
awaits the task before recursing.

The simulator below runs this loop over a list of tasks given by their
submission (arrival) time and execution duration, all in milliseconds.  It
returns, for each task in FIFO order, the time at which the task was
started and the value of `lastRequestTime` at that start. -/

/-- Task submitted to the request queue: submission time and run time (ms). -/
structure QTask where
  arrival : Nat
  duration : Nat
deriving DecidableEq

/-- Mutable module state of the queue: current clock, `requestsThisSecond`,
`lastRequestTime`. -/
structure QState where
  time : Nat
  requestsThisSecond : Nat
  lastRequestTime : Nat
deriving DecidableEq

/-- Quota `MAX_REQUESTS_PER_SECOND` from the source. -/
def MAX_REQUESTS_PER_SECOND : Nat := 30

/-- Embedding of `resetRequestCount`: if at least 1000 ms elapsed since
`lastRequestTime`, zero the counter and move the anchor to now. -/
def resetRequestCount (s : QState) : QState :=
  if 1000 ≤ s.time - s.lastRequestTime then
    { s with requestsThisSecond := 0, lastRequestTime := s.time }
  else s

/-- Embedding of the quota check at the top of `processQueue`: run
`resetRequestCount`; if the counter is still at the quota, wait one second
(`setTimeout(processQueue, 1000)`) and run `resetRequestCount` again.
Since the anchor never exceeds the clock, the second reset always fires, so
the source's retry loop runs at most once and one wait suffices. -/
def waitForQuota (s : QState) : QState :=
  let s1 := resetRequestCount s
  if MAX_REQUESTS_PER_SECOND ≤ s1.requestsThisSecond then
    resetRequestCount { s1 with time := s1.time + 1000 }
  else s1

/-- Timed simulation of `processQueue` over the FIFO task list.  Each task
is handled no earlier than its arrival (the queue is restarted by
`queueRequest` when idle), after the quota check; starting a task
increments the counter and occupies the loop for the task's duration
(`await request()`).  Output: `(start time, lastRequestTime at start)` per
task, in FIFO order. -/
def runQueue (s : QState) : List QTask → List (Nat × Nat)
  | [] => []
  | t :: ts =>
    let s1 := waitForQuota { s with time := max s.time t.arrival }
    (s1.time, s1.lastRequestTime) ::
      runQueue { time := s1.time + t.duration,
                 requestsThisSecond := s1.requestsThisSecond + 1,
                 lastRequestTime := s1.lastRequestTime } ts

/-- Number of recorded starts whose `lastRequestTime` anchor equals `L`,
i.e. the number of tasks started within the fixed counter window anchored
at `L`. -/
def countAnchor (L : Nat) (starts : List (Nat × Nat)) : Nat :=
  (starts.filter fun p => p.2 == L).length

/-- Number of recorded starts falling inside the half-open real-time window
`[w, w + 1000)`, i.e. inside a rolling one-second window. -/
def countWindow (w : Nat) (starts : List (Nat × Nat)) : Nat :=
  (starts.filter fun p => w ≤ p.1 && p.1 < w + 1000).length

/-! ## Retrying fetch wrapper (`fetchWithRetry`) -/

/-- Default retry count `MAX_RETRIES` from the source. -/
def MAX_RETRIES : Nat := 3

/-- Default initial delay `RETRY_DELAY` (ms) from the source. -/
def RETRY_DELAY : Nat := 1000

/-- Embedding of `fetchWithRetry`'s recursion.  `attempt k` is the outcome
of the k-th call of the target (network failure or non-ok response are both
`Except.error`).  Returns the final outcome, the total number of attempts
made, and the list of back-off sleeps performed (in order). -/
def fetchWithRetryAux {E T : Type} (attempt : Nat → Except E T) :
    Nat → Nat → Nat → Except E T × Nat × List Nat
  | retries, delay, k =>
    match attempt k with
    | Except.ok v => (Except.ok v, 1, [])
    | Except.error e =>
      match retries with
      | 0 => (Except.error e, 1, [])
      | r + 1 =>
        let rest := fetchWithRetryAux attempt r (delay * 2) (k + 1)
        (rest.1, rest.2.1 + 1, delay :: rest.2.2)

/-- Embedding of `fetchWithRetry` starting at attempt 0. -/
def fetchWithRetry {E T : Type} (attempt : Nat → Except E T)
    (retries : Nat) (delay : Nat) : Except E T × Nat × List Nat :=
  fetchWithRetryAux attempt retries delay 0

/-! ## Data model (types.ts) -/

/-- Sentiment category of an analyzed article (`financialSentimentCategory`,
one of bullish / bearish / neutral-impact / mixed). -/
inductive SentimentCategory
  | bullish
  | bearish
  | neutralImpact
  | mixed
deriving DecidableEq

/-- Price relevance label (`relevanceToPrice`). -/
inductive Relevance
  | high
  | medium
  | low
deriving DecidableEq

/-- Raw news article as produced by `getNewsArticles` (a `NewsArticle`
without the four LLM-derived fields).  `publishedAt` is epoch ms. -/
structure RawNewsArticle where
  id : String
  title : String
  summary : String
  url : Option String
  source : String
  publishedAt : Int
deriving DecidableEq

/-- Analyzed news article (`NewsArticle` of types.ts). -/
structure NewsArticle extends RawNewsArticle where
  financialSentimentCategory : SentimentCategory
  sentimentScore : ℚ
  relevanceToPrice : Relevance
  justification : String
deriving DecidableEq

/-- Polarity tag of a key factor (`KeyFactor.type`). -/
inductive FactorType
  | positive
  | negative
  | neutral
  | mixed
deriving DecidableEq

/-- Key factor of the structured summary.  The source field named `prefix`
is called `prefixLabel` here because `prefix` is reserved in Lean. -/
structure KeyFactor where
  type : FactorType
  prefixLabel : String
  title : String
  score : Option ℚ
  justificationSnippet : Option String
deriving DecidableEq

/-- Structured natural-language summary (`StructuredNewsSummary`). -/
structure StructuredNewsSummary where
  overallSentimentText : String
  averageScoreText : String
  keyFactors : List KeyFactor
  relevanceText : String
  hasContent : Bool
deriving DecidableEq

/-- Point of the sentiment trend series; `time` is the bucket start as
epoch ms (an ISO string in the source). -/
structure SentimentTrendPoint where
  time : Int
  sentiment : ℚ
  articles : Nat
deriving DecidableEq

/-- Aggregated sentiment result (`SentimentData`). -/
structure SentimentData where
  overall : ℚ
  positive : ℚ
  negative : ℚ
  neutral : ℚ
  summary : String
  structuredSummary : Option StructuredNewsSummary
  trendData : List SentimentTrendPoint
deriving DecidableEq

/-- Quote/profile snapshot (`StockInfo`). -/
structure StockInfo where
  symbol : String
  name : String
  price : ℚ
  change : ℚ
  changePercent : ℚ
  exchange : String
  industry : Option String
  previousClose : ℚ
  marketCap : Option ℚ
deriving DecidableEq

/-! ## Tiered response cache (stockCache.ts)

The three `Map`s of the `StockCache` class are embedded as association
lists with `Map.set` = replace-in-place insertion and `Map.delete` =
removal of the key. -/

/-- Lookup in an association list (`Map.get`). -/
def alistLookup {α : Type} (k : String) : List (String × α) → Option α
  | [] => none
  | (k1, v) :: rest => if k1 = k then some v else alistLookup k rest

/-- Insert-or-replace in an association list (`Map.set`). -/
def alistInsert {α : Type} (k : String) (v : α) :
    List (String × α) → List (String × α)
  | [] => [(k, v)]
  | (k1, v1) :: rest =>
    if k1 = k then (k, v) :: rest else (k1, v1) :: alistInsert k v rest

/-- Remove a key from an association list (`Map.delete`). -/
def alistErase {α : Type} (k : String) (l : List (String × α)) :
    List (String × α) :=
  l.filter fun p => p.1 != k

/-- Cached quote entry (`CachedStockData`). -/
structure CachedStockData extends StockInfo where
  cachedAt : Int
  ttl : Int
deriving DecidableEq

/-- Cached news entry (`CachedNewsData`). -/
structure CachedNewsData where
  data : List NewsArticle
  cachedAt : Int
  ttl : Int
deriving DecidableEq

/-- Cached sentiment entry (`CachedSentimentData`). -/
structure CachedSentimentData where
  data : SentimentData
  cachedAt : Int
  ttl : Int
deriving DecidableEq

/-- The three private maps of the `StockCache` class. -/
structure StockCache where
  stockCache : List (String × CachedStockData)
  newsCache : List (String × CachedNewsData)
  sentimentCache : List (String × CachedSentimentData)
deriving DecidableEq

/-- STOCK_TTL: 2 minutes, in ms. -/
def STOCK_TTL : Int := 2 * 60 * 1000

/-- NEWS_TTL: 10 minutes, in ms. -/
def NEWS_TTL : Int := 10 * 60 * 1000

/-- SENTIMENT_TTL: 10 minutes, in ms. -/
def SENTIMENT_TTL : Int := 10 * 60 * 1000

/-- Effective TTL stored by `StockCache.set`: the source computes
`ttl || this.STOCK_TTL`, so an absent or zero ttl falls back to the
default. -/
def stockEffTtl (ttl : Option Int) : Int :=
  match ttl with
  | some t => if t = 0 then STOCK_TTL else t
  | none => STOCK_TTL

/-- Embedding of `StockCache.set` (stock tier); `now` is `Date.now()`. -/
def StockCache.set (c : StockCache) (symbol : String) (stockData : StockInfo)
    (now : Int) (ttl : Option Int) : StockCache :=
  let cached : CachedStockData :=
    { toStockInfo := stockData, cachedAt := now, ttl := stockEffTtl ttl }
  { c with stockCache := alistInsert symbol.toUpper cached c.stockCache }

/-- Embedding of `StockCache.get` (stock tier): absent key gives `none`;
an entry with `now - cachedAt > ttl` is deleted and gives `none`; otherwise
the stored payload is rebuilt field by field.  Returns the read result and
the possibly-updated cache. -/
def StockCache.get (c : StockCache) (symbol : String) (now : Int) :
    Option StockInfo × StockCache :=
  match alistLookup symbol.toUpper c.stockCache with
  | none => (none, c)
  | some cached =>
    if cached.ttl < now - cached.cachedAt then
      (none, { c with stockCache := alistErase symbol.toUpper c.stockCache })
    else
      (some { symbol := cached.symbol, name := cached.name,
              price := cached.price, change := cached.change,
              changePercent := cached.changePercent,
              exchange := cached.exchange, industry := cached.industry,
              previousClose := cached.previousClose,
              marketCap := cached.marketCap }, c)

/-- Key of the news/sentiment tiers: upper-cased symbol, underscore, range. -/
def cacheKey (symbol timeRange : String) : String :=
  symbol.toUpper ++ "_" ++ timeRange

/-- Embedding of `StockCache.setNews`. -/
def StockCache.setNews (c : StockCache) (symbol timeRange : String)
    (newsData : List NewsArticle) (now : Int) : StockCache :=
  let cached : CachedNewsData :=
    { data := newsData, cachedAt := now, ttl := NEWS_TTL }
  { c with newsCache :=
      alistInsert (cacheKey symbol timeRange) cached c.newsCache }

/-- Embedding of `StockCache.getNews`. -/
def StockCache.getNews (c : StockCache) (symbol timeRange : String)
    (now : Int) : Option (List NewsArticle) × StockCache :=
  match alistLookup (cacheKey symbol timeRange) c.newsCache with
  | none => (none, c)
  | some cached =>
    if cached.ttl < now - cached.cachedAt then
      (none, { c with newsCache :=
                 alistErase (cacheKey symbol timeRange) c.newsCache })
    else
      (some cached.data, c)

/-- Embedding of `StockCache.setSentiment`. -/
def StockCache.setSentiment (c : StockCache) (symbol timeRange : String)
    (sentimentData : SentimentData) (now : Int) : StockCache :=
  let cached : CachedSentimentData :=
    { data := sentimentData, cachedAt := now, ttl := SENTIMENT_TTL }
  { c with sentimentCache :=
      alistInsert (cacheKey symbol timeRange) cached c.sentimentCache }

/-- Embedding of `StockCache.getSentiment`. -/
def StockCache.getSentiment (c : StockCache) (symbol timeRange : String)
    (now : Int) : Option SentimentData × StockCache :=
  match alistLookup (cacheKey symbol timeRange) c.sentimentCache with
  | none => (none, c)
  | some cached =>
    if cached.ttl < now - cached.cachedAt then
      (none, { c with sentimentCache :=
                 alistErase (cacheKey symbol timeRange) c.sentimentCache })
    else
      (some cached.data, c)

/-! ## News fetch pipeline (`getNewsArticles`)

The source maps the raw finnhub feed to articles (with `|| ''` textual
fallbacks, a generated fallback id and `now` as fallback timestamp), keeps
only the articles whose title, summary and url are all truthy, sorts them
by publication time descending (stable comparator `dateB - dateA`) and
keeps the first 10. -/

/-- Raw finnhub feed item as consumed by `getNewsArticles` (fields may be
absent in the JSON). -/
structure RawFeedItem where
  id : Option Int
  headline : Option String
  summary : Option String
  url : Option String
  source : String
  datetime : Option Int
deriving DecidableEq

/-- The per-item mapping of `getNewsArticles`: id falls back to a generated
string, headline/summary to the empty string, datetime (UNIX seconds) is
scaled to ms, absent datetime falls back to `now`. -/
def toRawArticle (now : Int) (fallbackId : String) (item : RawFeedItem) :
    RawNewsArticle :=
  { id := match item.id with
      | some i => toString i
      | none => fallbackId,
    title := item.headline.getD "",
    summary := item.summary.getD "",
    url := item.url,
    source := item.source,
    publishedAt := match item.datetime with
      | some dt => dt * 1000
      | none => now }

/-- JavaScript truthiness of the url field: present and non-empty. -/
def urlTruthy : Option String → Bool
  | none => false
  | some s => s != ""

/-- Descending publication order used by the sort comparator
`dateB - dateA`. -/
def newsGe (a b : RawNewsArticle) : Prop := b.publishedAt ≤ a.publishedAt

instance : DecidableRel newsGe := fun a b =>
  inferInstanceAs (Decidable (b.publishedAt ≤ a.publishedAt))

instance : IsTotal RawNewsArticle newsGe :=
  ⟨fun a b => le_total b.publishedAt a.publishedAt⟩

instance : IsTrans RawNewsArticle newsGe :=
  ⟨fun _ _ _ h1 h2 => le_trans h2 h1⟩

/-- Embedding of `getNewsArticles`' response processing.  `newsData = none`
models a missing or non-array response (the source then returns `[]`). -/
def getNewsArticles (now : Int) (fallbackId : String)
    (newsData : Option (List RawFeedItem)) : List RawNewsArticle :=
  match newsData with
  | none => []
  | some items =>
    let articles := items.map (toRawArticle now fallbackId)
    let filteredArticles :=
      ((articles.filter fun a =>
          a.title != "" && a.summary != "" && urlTruthy a.url).insertionSort
        newsGe).take 10
    filteredArticles

/-! ## Gemini analysis wrapper (`analyzeNewsWithGemini`) -/

/-- Default extension of a raw article used on every failure path: category
neutral-impact, score 0, relevance low, plus a diagnostic justification. -/
def defaultAnalyzed (justification : String) (a : RawNewsArticle) :
    NewsArticle :=
  { toRawNewsArticle := a,
    financialSentimentCategory := SentimentCategory.neutralImpact,
    sentimentScore := 0,
    relevanceToPrice := Relevance.low,
    justification := justification }

/-- Embedding of `analyzeNewsWithGemini`.  `hasKey` is the presence of the
configuration key; `callResult` is the outcome of the (queued, retried)
call of the Gemini edge function, whose success value is the parsed
response body.  The source never rejects: every failure path resolves with
the input articles mapped through the defaults. -/
def analyzeNewsWithGemini (hasKey : Bool) (articles : List RawNewsArticle)
    (callResult : Except String (List NewsArticle)) : List NewsArticle :=
  if hasKey = false then
    articles.map
      (defaultAnalyzed "Sentiment analysis skipped due to configuration error.")
  else if articles.length = 0 then []
  else
    match callResult with
    | Except.ok res => res
    | Except.error e =>
      articles.map
        (defaultAnalyzed ("Error analyzing sentiment: " ++ e ++ "."))

/-! ## Watchlist adapter (`useWatchlist.addToWatchlist`) -/

/-- Local watchlist entry. -/
structure WatchlistItem where
  symbol : String
  name : String
deriving DecidableEq

/-- Embedding of `addToWatchlist`: result is the new local list and whether
a database insert was issued.  No user: no-op.  Symbol already in the local
list: no-op before any insert.  Otherwise an insert is issued and, when it
succeeds, the item is optimistically prepended; a failed insert is caught
and leaves the list unchanged. -/
def addToWatchlist (user : Option String) (watchlist : List WatchlistItem)
    (symbol name : String) (insertOk : Bool) : List WatchlistItem × Bool :=
  match user with
  | none => (watchlist, false)
  | some _ =>
    if watchlist.any fun item => item.symbol == symbol then
      (watchlist, false)
    else if insertOk then
      ({ symbol := symbol, name := name } :: watchlist, true)
    else
      (watchlist, true)

/-! ## News sentiment aggregator (`analyzeSentiment`)

Trend bucketing for the `24h` range: with `hoursAgo = (now - published) /
3600000` the source computes `groupIndex = Math.floor(hoursAgo / 3)` and
anchors the bucket at `setHours(H - H % 3 - 3 * groupIndex, 0, 0, 0)` of
the current day, where `H = now.getHours()`; other ranges bucket at the
article's local midnight. -/

/-- Bucket index `Math.floor(hoursAgo / hoursPerGroup)` of an article for
the 24h range (exact rational division, then floor). -/
def bucketIndex (now published : Int) : Int :=
  ⌊(((now - published : Int) : ℚ) / 3600000) / 3⌋

/-- Local midnight of an epoch (ms), at UTC offset zero. -/
def dayStartEpoch (t : Int) : Int := t - t % 86400000

/-- Hour of day (`getHours`) of an epoch (ms), at UTC offset zero. -/
def hourOfDay (t : Int) : Int := t % 86400000 / 3600000

/-- Bucket start epoch for the 24h range: the `setHours` call above as
integer arithmetic (out-of-range hour values roll calendar days, which is
exactly the linear formula). -/
def periodStartEpoch24 (now g : Int) : Int :=
  dayStartEpoch now + (hourOfDay now - hourOfDay now % 3 - 3 * g) * 3600000

/-- Bucket start epoch of an article: 3-hour buckets anchored to `now` for
the `24h` range, the article's calendar day otherwise. -/
def periodStartEpoch (timeRange : String) (now published : Int) : Int :=
  if timeRange = "24h" then periodStartEpoch24 now (bucketIndex now published)
  else dayStartEpoch published

/-- Append an article to its group, preserving the `Map`'s key insertion
order and the per-group article order (`push`). -/
def addToGroup (key : Int) (a : NewsArticle) :
    List (Int × List NewsArticle) → List (Int × List NewsArticle)
  | [] => [(key, [a])]
  | (k, as) :: rest =>
    if k = key then (k, as ++ [a]) :: rest else (k, as) :: addToGroup key a rest

/-- The `timeGroups` map of `analyzeSentiment`. -/
def buildTimeGroups (timeRange : String) (now : Int)
    (news : List NewsArticle) : List (Int × List NewsArticle) :=
  news.foldl
    (fun groups a =>
      addToGroup (periodStartEpoch timeRange now a.publishedAt) a groups)
    []

/-- Ascending bucket-start order used for the trend series sort. -/
def keyLe (p q : Int × List NewsArticle) : Prop := p.1 ≤ q.1

instance : DecidableRel keyLe := fun p q =>
  inferInstanceAs (Decidable (p.1 ≤ q.1))

instance : IsTotal (Int × List NewsArticle) keyLe :=
  ⟨fun p q => le_total p.1 q.1⟩

instance : IsTrans (Int × List NewsArticle) keyLe :=
  ⟨fun _ _ _ h1 h2 => le_trans h1 h2⟩

/-- The trend series: groups sorted chronologically ascending, each bucket
carrying the mean score (`reduce / Math.max(1, length)`) and the article
count. -/
def buildTrendData (timeRange : String) (now : Int)
    (news : List NewsArticle) : List SentimentTrendPoint :=
  ((buildTimeGroups timeRange now news).insertionSort keyLe).map fun g =>
    { time := g.1,
      sentiment := (g.2.foldl (fun sum art => sum + art.sentimentScore) 0) /
        (max 1 g.2.length : ℚ),
      articles := g.2.length }

/-- Formatting of `overallSentiment.toFixed(2)`: sign, then the magnitude
rounded half-up to hundredths, with a two-digit fractional part. -/
def toFixed2 (q : ℚ) : String :=
  let cents : Int := ⌊|q| * 100 + 1 / 2⌋
  let sign := if q < 0 then "-" else ""
  let whole := cents / 100
  let frac := cents % 100
  sign ++ toString whole ++ "." ++ (if frac < 10 then "0" else "") ++
    toString frac

/-- Descending score order of the bullish-driver sort (`b.score - a.score`
comparator, stable). -/
def scoreGe (a b : NewsArticle) : Prop := b.sentimentScore ≤ a.sentimentScore

instance : DecidableRel scoreGe := fun a b =>
  inferInstanceAs (Decidable (b.sentimentScore ≤ a.sentimentScore))

/-- Ascending score order of the bearish-driver sort (`a.score - b.score`
comparator, stable). -/
def scoreLe (a b : NewsArticle) : Prop := a.sentimentScore ≤ b.sentimentScore

instance : DecidableRel scoreLe := fun a b =>
  inferInstanceAs (Decidable (a.sentimentScore ≤ b.sentimentScore))

/-- Descending absolute-impact order of the fallback sort. -/
def impactGe (a b : NewsArticle) : Prop :=
  |b.sentimentScore| ≤ |a.sentimentScore|

instance : DecidableRel impactGe := fun a b =>
  inferInstanceAs (Decidable (|b.sentimentScore| ≤ |a.sentimentScore|))

/-- The `justification ? justification.substring(0, 100) + '...' :
undefined` snippet (empty string is falsy). -/
def snippet (j : String) : Option String :=
  if j ≠ "" then some (j.take 100 ++ "...") else none

/-- Fallback polarity tag of a key factor derived from an article's
category. -/
def factorTypeOf (c : SentimentCategory) : FactorType :=
  if c = SentimentCategory.bullish then FactorType.positive
  else if c = SentimentCategory.bearish then FactorType.negative
  else FactorType.neutral

/-- Embedding of `generateStructuredNewsSummary`. -/
def generateStructuredNewsSummary (symbol : String) (news : List NewsArticle)
    (overallSentiment : ℚ) : StructuredNewsSummary :=
  if news.length = 0 then
    { overallSentimentText := "No recent news available for " ++ symbol ++ ".",
      averageScoreText := "",
      keyFactors := [],
      relevanceText := "Sentiment analysis cannot be performed.",
      hasContent := false }
  else
    let overallSentimentDescription :=
      if overallSentiment > 1 / 2 then "decidedly bullish"
      else if overallSentiment > 3 / 20 then "leaning bullish"
      else if overallSentiment < -(1 / 2) then "decidedly bearish"
      else if overallSentiment < -(3 / 20) then "leaning bearish"
      else if news.any fun a =>
          a.financialSentimentCategory == SentimentCategory.mixed then "mixed"
      else "neutral"
    let overallSentimentText :=
      "Overall sentiment for " ++ symbol ++ " is " ++
        overallSentimentDescription
    let averageScoreText := "(Avg. Score: " ++ toFixed2 overallSentiment ++ ")"
    let topPositiveArticle :=
      ((news.filter fun a =>
          a.financialSentimentCategory == SentimentCategory.bullish).insertionSort
        scoreGe).head?
    let topNegativeArticle :=
      ((news.filter fun a =>
          a.financialSentimentCategory == SentimentCategory.bearish).insertionSort
        scoreLe).head?
    let kf1 : List KeyFactor :=
      match topPositiveArticle with
      | some a =>
        if a.sentimentScore > 3 / 10 then
          [{ type := FactorType.positive, prefixLabel := "(+)",
             title := "Bullish Driver: \"" ++ a.title ++ "\"",
             score := some a.sentimentScore,
             justificationSnippet := snippet a.justification }]
        else []
      | none => []
    let kf2 : List KeyFactor :=
      match topNegativeArticle with
      | some a =>
        if a.sentimentScore < -(3 / 10) then
          kf1 ++
            [{ type := FactorType.negative, prefixLabel := "(-)",
               title := "Bearish Driver: \"" ++ a.title ++ "\"",
               score := some a.sentimentScore,
               justificationSnippet := snippet a.justification }]
        else kf1
      | none => kf1
    let sortedByImpact := news.insertionSort impactGe
    let kf3 : List KeyFactor :=
      if kf2.length = 0 ∧ news.length > 0 then
        let kfa : List KeyFactor :=
          match sortedByImpact[0]? with
          | some a =>
            if |a.sentimentScore| > 1 / 10 then
              kf2 ++
                [{ type := factorTypeOf a.financialSentimentCategory,
                   prefixLabel := "Key Mention:",
                   title := "\"" ++ a.title ++ "\"",
                   score := some a.sentimentScore,
                   justificationSnippet := snippet a.justification }]
            else kf2
          | none => kf2
        if sortedByImpact.length > 1 ∧ kfa.length < 2 then
          match sortedByImpact[1]? with
          | some a =>
            if |a.sentimentScore| > 1 / 10 then
              kfa ++
                [{ type := factorTypeOf a.financialSentimentCategory,
                   prefixLabel := "Also Noted:",
                   title := "\"" ++ a.title ++ "\"",
                   score := some a.sentimentScore,
                   justificationSnippet := snippet a.justification }]
            else kfa
          | none => kfa
        else kfa
      else kf2
    let keyFactors : List KeyFactor :=
      if kf3.length = 0 ∧ news.length > 0 then
        [{ type := FactorType.neutral, prefixLabel := "Info:",
           title := "No single dominant factor stood out in the recent news, but overall sentiment is as stated.",
           score := none, justificationSnippet := none }]
      else kf3
    let highRelevanceCount :=
      (news.filter fun a => a.relevanceToPrice == Relevance.high).length
    let relevanceText :=
      if highRelevanceCount > 0 then
        toString highRelevanceCount ++
          " article(s) were deemed highly relevant to stock price by the AI."
      else if news.length > 0 then
        "AI analysis found no articles with high relevance to stock price among the top news."
      else ""
    { overallSentimentText := overallSentimentText,
      averageScoreText := averageScoreText,
      keyFactors := keyFactors,
      relevanceText := relevanceText,
      hasContent := true }

/-- The fixed "no news" structured summary of `analyzeSentiment`. -/
def fallbackStructuredSummary (symbol : String) : StructuredNewsSummary :=
  { overallSentimentText := "No news available for " ++ symbol ++ ".",
    averageScoreText := "",
    keyFactors := [],
    relevanceText := "Sentiment analysis cannot be performed.",
    hasContent := false }

/-- Embedding of `analyzeSentiment`.  `now` is `new Date()` taken at entry;
`cached` is the generic-cache lookup under `sentiment_<symbol>_<timeRange>`
(an unexpired entry short-circuits). -/
def analyzeSentiment (symbol : String) (news : List NewsArticle)
    (timeRange : String) (now : Int) (cached : Option SentimentData) :
    SentimentData :=
  match cached with
  | some c => c
  | none =>
    if news.length = 0 then
      { overall := 0, positive := 0, negative := 0, neutral := 1,
        trendData := [],
        summary := (fallbackStructuredSummary symbol).overallSentimentText,
        structuredSummary := some (fallbackStructuredSummary symbol) }
    else
      let sentimentScores := news.map fun a => a.sentimentScore
      let overallSentiment : ℚ :=
        if sentimentScores.length > 0 then
          sentimentScores.foldl (fun sum score => sum + score) 0 /
            (sentimentScores.length : ℚ)
        else 0
      let positive : ℚ :=
        ((news.filter fun a =>
            a.financialSentimentCategory == SentimentCategory.bullish).length : ℚ) /
          (news.length : ℚ)
      let negative : ℚ :=
        ((news.filter fun a =>
            a.financialSentimentCategory == SentimentCategory.bearish).length : ℚ) /
          (news.length : ℚ)
      let neutral : ℚ :=
        ((news.filter fun a =>
            a.financialSentimentCategory == SentimentCategory.neutralImpact ||
            a.financialSentimentCategory == SentimentCategory.mixed).length : ℚ) /
          (news.length : ℚ)
      let trendData := buildTrendData timeRange now news
      let structuredSummaryData :=
        generateStructuredNewsSummary symbol news overallSentiment
      { overall := overallSentiment,
        positive := positive,
        negative := negative,
        neutral := neutral,
        trendData := trendData,
        summary := structuredSummaryData.overallSentimentText ++ " " ++
          structuredSummaryData.averageScoreText,
        structuredSummary := some structuredSummaryData }

/-! ## Concrete sample data used in scenario theorems and witnesses -/

/-- Bullish article of the specification's scenario (score 0.6), published
at epoch 99000000 ms. -/
def articleBullish : NewsArticle :=
  { id := "1", title := "Beats expectations", summary := "strong quarter",
    url := some "https://example.com/a", source := "wire",
    publishedAt := 99000000,
    financialSentimentCategory := SentimentCategory.bullish,
    sentimentScore := 3 / 5, relevanceToPrice := Relevance.high,
    justification := "guidance raised" }

/-- Bearish article of the specification's scenario (score -0.4), published
one hour before `articleBullish`. -/
def articleBearish : NewsArticle :=
  { id := "2", title := "Recall announced", summary := "defect found",
    url := some "https://example.com/b", source := "wire",
    publishedAt := 95400000,
    financialSentimentCategory := SentimentCategory.bearish,
    sentimentScore := -(2 / 5), relevanceToPrice := Relevance.low,
    justification := "" }

/-- Sample quote payload for cache witnesses. -/
def sampleStockInfo : StockInfo :=
  { symbol := "AAPL", name := "Apple Inc", price := 190, change := 2,
    changePercent := 21 / 20, exchange := "NASDAQ", industry := some "Tech",
    previousClose := 188, marketCap := some 3000000000000 }

/-- Sample sentiment payload for cache witnesses. -/
def sampleSentimentData : SentimentData :=
  { overall := 1 / 10, positive := 1 / 2, negative := 1 / 2, neutral := 0,
    summary := "", structuredSummary := none, trendData := [] }

/-- Sample raw feed for news-pipeline witnesses: one fully formed recent
item, one older item, and one item without a headline (filtered out). -/
def sampleFeed : List RawFeedItem :=
  [{ id := some 11, headline := some "Old", summary := some "old news",
     url := some "https://example.com/o", source := "wire",
     datetime := some 100 },
   { id := none, headline := none, summary := some "no title",
     url := some "https://example.com/n", source := "wire",
     datetime := some 300 },
   { id := some 12, headline := some "New", summary := some "new news",
     url := some "https://example.com/p", source := "wire",
     datetime := some 200 }]

/-! ## Theorems: association-list and queue lemmas -/

theorem alistLookup_insert_self {α : Type} (k : String) (v : α)
    (l : List (String × α)) : alistLookup k (alistInsert k v l) = some v := by
  induction l with
  | nil => simp [alistInsert, alistLookup]
  | cons p rest ih =>
    obtain ⟨k1, v1⟩ := p
    by_cases h : k1 = k
    · simp [alistInsert, h, alistLookup]
    · simp [alistInsert, h, alistLookup, ih]

theorem alistLookup_erase_self {α : Type} (k : String)
    (l : List (String × α)) : alistLookup k (alistErase k l) = none := by
  induction l with
  | nil => simp [alistErase, alistLookup]
  | cons p rest ih =>
    obtain ⟨k1, v1⟩ := p
    by_cases h : k1 = k
    · simpa [alistErase, h] using ih
    · simpa [alistErase, alistLookup, h] using ih

theorem waitForQuota_spec (s : QState)
    (h : s.lastRequestTime ≤ s.time) :
    s.time ≤ (waitForQuota s).time ∧
    (waitForQuota s).lastRequestTime ≤ (waitForQuota s).time ∧
    (waitForQuota s).requestsThisSecond < MAX_REQUESTS_PER_SECOND ∧
    (waitForQuota s).time - (waitForQuota s).lastRequestTime < 1000 ∧
    ((waitForQuota s).lastRequestTime = s.lastRequestTime ∧
       (waitForQuota s).requestsThisSecond = s.requestsThisSecond ∨
     (waitForQuota s).requestsThisSecond = 0 ∧
       s.lastRequestTime + 1000 ≤ (waitForQuota s).lastRequestTime) := by
  simp only [waitForQuota, resetRequestCount, MAX_REQUESTS_PER_SECOND]
  split_ifs <;> simp_all <;> omega

theorem runQueue_step_spec (s : QState) (t : QTask)
    (h : s.lastRequestTime ≤ s.time) :
    s.time ≤ (waitForQuota { s with time := max s.time t.arrival }).time ∧
    (waitForQuota { s with time := max s.time t.arrival }).lastRequestTime ≤
      (waitForQuota { s with time := max s.time t.arrival }).time ∧
    (waitForQuota { s with time := max s.time t.arrival }).requestsThisSecond <
      MAX_REQUESTS_PER_SECOND ∧
    (waitForQuota { s with time := max s.time t.arrival }).time -
      (waitForQuota { s with time := max s.time t.arrival }).lastRequestTime <
      1000 ∧
    ((waitForQuota { s with time := max s.time t.arrival }).lastRequestTime =
        s.lastRequestTime ∧
      (waitForQuota { s with time := max s.time t.arrival }).requestsThisSecond =
        s.requestsThisSecond ∨
     (waitForQuota { s with time := max s.time t.arrival }).requestsThisSecond =
        0 ∧
      s.lastRequestTime + 1000 ≤
        (waitForQuota { s with time := max s.time t.arrival }).lastRequestTime) := by
  have h1 : ({ s with time := max s.time t.arrival } : QState).lastRequestTime ≤
      ({ s with time := max s.time t.arrival } : QState).time :=
    le_trans h (le_max_left _ _)
  obtain ⟨a1, a2, a3, a4, a5⟩ :=
    waitForQuota_spec { s with time := max s.time t.arrival } h1
  exact ⟨le_trans (le_max_left _ _) a1, a2, a3, a4, a5⟩

theorem runQueue_anchor_ge (ts : List QTask) :
    ∀ s : QState, s.lastRequestTime ≤ s.time →
      ∀ p ∈ runQueue s ts, s.lastRequestTime ≤ p.2 := by
  induction ts with
  | nil => intro s _ p hp; simp [runQueue] at hp
  | cons t ts ih =>
    intro s h p hp
    obtain ⟨h1, h2, h3, h4, hcase⟩ := runQueue_step_spec s t h
    rw [runQueue] at hp
    rcases List.mem_cons.mp hp with hhead | htail
    · subst hhead
      rcases hcase with ⟨he, _⟩ | ⟨_, he⟩ <;> simp only <;> omega
    · have hnext := ih
        { time := (waitForQuota { s with time := max s.time t.arrival }).time +
            t.duration,
          requestsThisSecond :=
            (waitForQuota { s with time := max s.time t.arrival }).requestsThisSecond + 1,
          lastRequestTime :=
            (waitForQuota { s with time := max s.time t.arrival }).lastRequestTime }
        (by simp only; omega) _ htail
      simp only at hnext
      rcases hcase with ⟨he, _⟩ | ⟨_, he⟩ <;> omega

theorem runQueue_start_ge (ts : List QTask) :
    ∀ s : QState, s.lastRequestTime ≤ s.time →
      ∀ p ∈ runQueue s ts, s.time ≤ p.1 := by
  induction ts with
  | nil => intro s _ p hp; simp [runQueue] at hp
  | cons t ts ih =>
    intro s h p hp
    obtain ⟨h1, h2, h3, h4, hcase⟩ := runQueue_step_spec s t h
    rw [runQueue] at hp
    rcases List.mem_cons.mp hp with hhead | htail
    · subst hhead
      simpa using h1
    · have hnext := ih
        { time := (waitForQuota { s with time := max s.time t.arrival }).time +
            t.duration,
          requestsThisSecond :=
            (waitForQuota { s with time := max s.time t.arrival }).requestsThisSecond + 1,
          lastRequestTime :=
            (waitForQuota { s with time := max s.time t.arrival }).lastRequestTime }
        (by simp only; omega) _ htail
      simp only at hnext
      omega

theorem runQueue_window (ts : List QTask) :
    ∀ s : QState, s.lastRequestTime ≤ s.time →
      ∀ p ∈ runQueue s ts, p.2 ≤ p.1 ∧ p.1 < p.2 + 1000 := by
  induction ts with
  | nil => intro s _ p hp; simp [runQueue] at hp
  | cons t ts ih =>
    intro s h p hp
    obtain ⟨h1, h2, h3, h4, hcase⟩ := runQueue_step_spec s t h
    rw [runQueue] at hp
    rcases List.mem_cons.mp hp with hhead | htail
    · subst hhead
      constructor <;> simp only <;> omega
    · exact ih
        { time := (waitForQuota { s with time := max s.time t.arrival }).time +
            t.duration,
          requestsThisSecond :=
            (waitForQuota { s with time := max s.time t.arrival }).requestsThisSecond + 1,
          lastRequestTime :=
            (waitForQuota { s with time := max s.time t.arrival }).lastRequestTime }
        (by simp only; omega) _ htail

theorem runQueue_chain (ts : List QTask) :
    ∀ s : QState, s.lastRequestTime ≤ s.time →
      List.Chain' (fun p q : Nat × Nat => p.1 ≤ q.1) (runQueue s ts) := by
  induction ts with
  | nil => intro s _; simp [runQueue]
  | cons t ts ih =>
    intro s h
    obtain ⟨h1, h2, h3, h4, hcase⟩ := runQueue_step_spec s t h
    rw [runQueue]
    refine List.chain'_cons'.mpr ⟨?_, ih _ (by simp only; omega)⟩
    intro q hq
    have hqmem := List.mem_of_mem_head? hq
    have hstart := runQueue_start_ge ts
      { time := (waitForQuota { s with time := max s.time t.arrival }).time +
          t.duration,
        requestsThisSecond :=
          (waitForQuota { s with time := max s.time t.arrival }).requestsThisSecond + 1,
        lastRequestTime :=
          (waitForQuota { s with time := max s.time t.arrival }).lastRequestTime }
      (by simp only; omega) _ hqmem
    simp only at hstart ⊢
    omega

theorem runQueue_length (ts : List QTask) :
    ∀ s : QState, (runQueue s ts).length = ts.length := by
  induction ts with
  | nil => intro s; simp [runQueue]
  | cons t ts ih => intro s; simp [runQueue, ih]

theorem countAnchor_cons (L : Nat) (p : Nat × Nat) (xs : List (Nat × Nat)) :
    countAnchor L (p :: xs) =
      (if p.2 = L then 1 else 0) + countAnchor L xs := by
  by_cases h : p.2 = L
  · simp [countAnchor, List.filter_cons, h]
    omega
  · simp [countAnchor, List.filter_cons, h]

theorem countAnchor_eq_zero_of_lt (L c : Nat) (xs : List (Nat × Nat))
    (hall : ∀ p ∈ xs, c ≤ p.2) (hL : L < c) : countAnchor L xs = 0 := by
  induction xs with
  | nil => rfl
  | cons p rest ih =>
    rw [countAnchor_cons]
    have hp := hall p (List.mem_cons_self p rest)
    have hrest := ih fun q hq => hall q (List.mem_cons_of_mem p hq)
    have hne : ¬ p.2 = L := by omega
    simp [hne, hrest]

theorem countAnchor_runQueue (ts : List QTask) :
    ∀ s : QState, s.lastRequestTime ≤ s.time →
      s.requestsThisSecond ≤ MAX_REQUESTS_PER_SECOND →
      ∀ L, countAnchor L (runQueue s ts) ≤
        (if L = s.lastRequestTime
         then MAX_REQUESTS_PER_SECOND - s.requestsThisSecond
         else MAX_REQUESTS_PER_SECOND) := by
  induction ts with
  | nil =>
    intro s _ _ L
    have hnil : countAnchor L (runQueue s []) = 0 := rfl
    rw [hnil]
    omega
  | cons t ts ih =>
    intro s h hcnt L
    rw [runQueue, countAnchor_cons]
    obtain ⟨h1, h2, h3, h4, hcase⟩ := runQueue_step_spec s t h
    simp only [MAX_REQUESTS_PER_SECOND] at h3 hcnt
    set w := waitForQuota { s with time := max s.time t.arrival } with hw
    have hnext := ih
      { time := w.time + t.duration,
        requestsThisSecond := w.requestsThisSecond + 1,
        lastRequestTime := w.lastRequestTime }
      (by simp only; omega) (by simp only [MAX_REQUESTS_PER_SECOND]; omega) L
    simp only at hnext
    have hanchor := runQueue_anchor_ge ts
      { time := w.time + t.duration,
        requestsThisSecond := w.requestsThisSecond + 1,
        lastRequestTime := w.lastRequestTime }
      (by simp only; omega)
    simp only at hanchor
    have hz : countAnchor L (runQueue
        { time := w.time + t.duration,
          requestsThisSecond := w.requestsThisSecond + 1,
          lastRequestTime := w.lastRequestTime } ts) = 0 ∨
        w.lastRequestTime ≤ L := by
      by_cases hlt : L < w.lastRequestTime
      · exact Or.inl
          (countAnchor_eq_zero_of_lt L w.lastRequestTime _ hanchor hlt)
      · exact Or.inr (by omega)
    simp only [MAX_REQUESTS_PER_SECOND] at hnext hcnt h3 ⊢
    rcases hcase with ⟨he, hc⟩ | ⟨hc, he⟩ <;> rcases hz with hz | hz <;>
      split_ifs at hnext ⊢ <;> omega

/-! ## Claim C1: request-queue rate limiting and FIFO order -/

/-- Claim C1, counterexample.  The claim states that the queue never starts
more than 30 tasks within any rolling one-second window.  With the module
loaded at time 0, thirty instantaneous tasks submitted at t = 900 ms are
all started at t = 900 (the counter window anchored at 0 still has quota);
thirty more submitted at t = 1100 ms are all started at t = 1100, because
`resetRequestCount` moves the anchor and zeroes the counter at that moment.
The rolling one-second window `[900, 1900)` therefore contains 60 starts. -/
theorem queue_rolling_window_counterexample :
    30 < countWindow 900
      (runQueue ⟨0, 0, 0⟩
        (List.replicate 30 ⟨900, 0⟩ ++ List.replicate 30 ⟨1100, 0⟩)) := by
  decide

/-- Claim C1, amended.  Tasks are started in FIFO submission order (one
output start per submitted task, with non-decreasing start times), and the
queue never starts more than `MAX_REQUESTS_PER_SECOND` = 30 tasks within
any one of the fixed windows of its counter: each start is tagged with the
anchor `lastRequestTime` current at that start, each start lies within
1000 ms of its anchor, and at most 30 starts share an anchor.  (Across a
rolling one-second window spanning two counter windows, up to 60 starts
are possible, as the counterexample shows.) -/
theorem queue_fixed_window_fifo (t0 : Nat) (ts : List QTask) :
    (runQueue ⟨t0, 0, t0⟩ ts).length = ts.length ∧
    List.Chain' (fun p q : Nat × Nat => p.1 ≤ q.1) (runQueue ⟨t0, 0, t0⟩ ts) ∧
    (∀ L, countAnchor L (runQueue ⟨t0, 0, t0⟩ ts) ≤ MAX_REQUESTS_PER_SECOND) ∧
    (∀ p ∈ runQueue ⟨t0, 0, t0⟩ ts, p.2 ≤ p.1 ∧ p.1 < p.2 + 1000) := by
  refine ⟨runQueue_length ts _, runQueue_chain ts _ le_rfl, ?_, ?_⟩
  · intro L
    have hb := countAnchor_runQueue ts ⟨t0, 0, t0⟩ le_rfl
      (by simp [MAX_REQUESTS_PER_SECOND]) L
    split_ifs at hb <;> omega
  · exact runQueue_window ts _ le_rfl

/-- Witness for the amended claim C1, at a concrete task list. -/
theorem queue_fixed_window_fifo_witness :
    (runQueue ⟨0, 0, 0⟩ [⟨5, 7⟩, ⟨5, 0⟩]).length = 2 ∧
    List.Chain' (fun p q : Nat × Nat => p.1 ≤ q.1)
      (runQueue ⟨0, 0, 0⟩ [⟨5, 7⟩, ⟨5, 0⟩]) ∧
    (∀ L, countAnchor L (runQueue ⟨0, 0, 0⟩ [⟨5, 7⟩, ⟨5, 0⟩]) ≤
      MAX_REQUESTS_PER_SECOND) ∧
    (∀ p ∈ runQueue ⟨0, 0, 0⟩ [⟨5, 7⟩, ⟨5, 0⟩], p.2 ≤ p.1 ∧ p.1 < p.2 + 1000) :=
  queue_fixed_window_fifo 0 [⟨5, 7⟩, ⟨5, 0⟩]

/-! ## Claim C4: retry wrapper exhausts retries with doubling delays -/

/-- Claim C4.  When every attempt of the target fails, `fetchWithRetry`
with the default `MAX_RETRIES` = 3 and initial delay `d` makes exactly
4 attempts (1 initial + 3 retries), sleeping `d`, `2d`, `4d` before the
three retries, and surfaces the failure of the last attempt. -/
theorem fetchWithRetry_exhausts_retries {E T : Type}
    (attempt : Nat → Except E T) (err : Nat → E) (delay : Nat)
    (h : ∀ k, attempt k = Except.error (err k)) :
    fetchWithRetry attempt MAX_RETRIES delay =
      (Except.error (err 3), 4, [delay, delay * 2, delay * 4]) := by
  have e0 := h 0
  have e1 := h 1
  have e2 := h 2
  have e3 := h 3
  simp [fetchWithRetry, MAX_RETRIES, fetchWithRetryAux, e0, e1, e2, e3]
  ring

/-- Witness for claim C4: a target failing with its attempt index. -/
theorem fetchWithRetry_exhausts_retries_witness :
    fetchWithRetry (fun k => (Except.error k : Except Nat Unit)) MAX_RETRIES 7 =
      (Except.error 3, 4, [7, 14, 28]) :=
  fetchWithRetry_exhausts_retries (fun k => (Except.error k : Except Nat Unit))
    (fun k => k) 7 (fun _ => rfl)

/-! ## Claim C9: adding an already-present watchlist symbol is a no-op -/

/-- Claim C9.  For an authenticated user and a symbol already present in
the local watchlist, `addToWatchlist` leaves the local list unchanged and
issues no database insert. -/
theorem addToWatchlist_existing_noop (uid : String)
    (watchlist : List WatchlistItem) (symbol name : String) (insertOk : Bool)
    (h : (watchlist.any fun item => item.symbol == symbol) = true) :
    addToWatchlist (some uid) watchlist symbol name insertOk =
      (watchlist, false) := by
  simp [addToWatchlist, h]

/-- Witness for claim C9 at a concrete watchlist. -/
theorem addToWatchlist_existing_noop_witness :
    addToWatchlist (some "user-1") [{ symbol := "AAPL", name := "Apple" }]
      "AAPL" "Apple Inc" true =
      ([{ symbol := "AAPL", name := "Apple" }], false) :=
  addToWatchlist_existing_noop "user-1" [{ symbol := "AAPL", name := "Apple" }]
    "AAPL" "Apple Inc" true (by decide)

/-! ## Claim C7: Gemini analysis failures default every article -/

/-- Claim C7.  Whenever the LLM-analysis call fails (missing configuration
key, or the network call fails after all retries), `analyzeNewsWithGemini`
resolves with exactly the input articles, in order, each extended with
category neutral-impact, score 0 and relevance low: the result is the
input list mapped through `defaultAnalyzed` with some justification text,
so it has the same length and no article is partially filled or omitted. -/
theorem analyzeNewsWithGemini_failure_defaults (hasKey : Bool)
    (articles : List RawNewsArticle)
    (res : Except String (List NewsArticle))
    (h : hasKey = false ∨ ∃ e, res = Except.error e) :
    ∃ j, analyzeNewsWithGemini hasKey articles res =
        articles.map (defaultAnalyzed j) ∧
      (analyzeNewsWithGemini hasKey articles res).length = articles.length ∧
      ∀ b ∈ analyzeNewsWithGemini hasKey articles res,
        b.financialSentimentCategory = SentimentCategory.neutralImpact ∧
        b.sentimentScore = 0 ∧ b.relevanceToPrice = Relevance.low := by
  have hmap : ∀ j : String, ∀ b ∈ articles.map (defaultAnalyzed j),
      b.financialSentimentCategory = SentimentCategory.neutralImpact ∧
      b.sentimentScore = 0 ∧ b.relevanceToPrice = Relevance.low := by
    intro j b hb
    obtain ⟨a, _, rfl⟩ := List.mem_map.mp hb
    exact ⟨rfl, rfl, rfl⟩
  rcases h with hk | ⟨e, he⟩
  · refine ⟨"Sentiment analysis skipped due to configuration error.", ?_, ?_, ?_⟩
    · simp [analyzeNewsWithGemini, hk]
    · simp [analyzeNewsWithGemini, hk]
    · rw [show analyzeNewsWithGemini hasKey articles res =
          articles.map (defaultAnalyzed
            "Sentiment analysis skipped due to configuration error.") by
        simp [analyzeNewsWithGemini, hk]]
      exact hmap _
  · cases hasKey with
    | false =>
      refine ⟨"Sentiment analysis skipped due to configuration error.", ?_, ?_, ?_⟩
      · simp [analyzeNewsWithGemini]
      · simp [analyzeNewsWithGemini]
      · rw [show analyzeNewsWithGemini false articles res =
            articles.map (defaultAnalyzed
              "Sentiment analysis skipped due to configuration error.") by
          simp [analyzeNewsWithGemini]]
        exact hmap _
    | true =>
      by_cases ha : articles.length = 0
      · have hnil : articles = [] := List.length_eq_zero.mp ha
        subst hnil
        refine ⟨"Error analyzing sentiment: " ++ e ++ ".", ?_, ?_, ?_⟩
        · simp [analyzeNewsWithGemini, he]
        · simp [analyzeNewsWithGemini, he]
        · simp [analyzeNewsWithGemini, he]
      · refine ⟨"Error analyzing sentiment: " ++ e ++ ".", ?_, ?_, ?_⟩
        · simp [analyzeNewsWithGemini, ha, he]
        · simp [analyzeNewsWithGemini, ha, he]
        · rw [show analyzeNewsWithGemini true articles res =
              articles.map (defaultAnalyzed
                ("Error analyzing sentiment: " ++ e ++ ".")) by
            simp [analyzeNewsWithGemini, ha, he]]
          exact hmap _

/-- Witness for claim C7: the network call fails on a one-article input. -/
theorem analyzeNewsWithGemini_failure_defaults_witness :
    ∃ j, analyzeNewsWithGemini true [articleBullish.toRawNewsArticle]
        (Except.error "boom") =
        [articleBullish.toRawNewsArticle].map (defaultAnalyzed j) ∧
      (analyzeNewsWithGemini true [articleBullish.toRawNewsArticle]
        (Except.error "boom")).length = 1 ∧
      ∀ b ∈ analyzeNewsWithGemini true [articleBullish.toRawNewsArticle]
          (Except.error "boom"),
        b.financialSentimentCategory = SentimentCategory.neutralImpact ∧
        b.sentimentScore = 0 ∧ b.relevanceToPrice = Relevance.low :=
  analyzeNewsWithGemini_failure_defaults true [articleBullish.toRawNewsArticle]
    (Except.error "boom") (Or.inr ⟨"boom", rfl⟩)

/-! ## Claim C10: shape of the news list returned by getNewsArticles -/

/-- Claim C10.  The list produced by `getNewsArticles` holds at most 10
articles; every article has a non-empty title, a non-empty summary and a
(truthy) url; and the list is sorted by publication timestamp in
non-increasing, newest-first order (`newsGe`). -/
theorem getNewsArticles_shape (now : Int) (fallbackId : String)
    (newsData : Option (List RawFeedItem)) :
    (getNewsArticles now fallbackId newsData).length ≤ 10 ∧
    ((getNewsArticles now fallbackId newsData).all fun a =>
      a.title != "" && a.summary != "" && urlTruthy a.url) = true ∧
    List.Sorted newsGe (getNewsArticles now fallbackId newsData) := by
  cases newsData with
  | none => exact ⟨by simp [getNewsArticles], by simp [getNewsArticles],
      by simp [getNewsArticles]⟩
  | some items =>
    refine ⟨?_, ?_, ?_⟩
    · simp only [getNewsArticles]
      rw [List.length_take]
      exact min_le_left _ _
    · rw [List.all_eq_true]
      intro a ha
      simp only [getNewsArticles] at ha
      have h1 : a ∈ (((items.map (toRawArticle now fallbackId)).filter fun a =>
          a.title != "" && a.summary != "" && urlTruthy a.url).insertionSort
          newsGe) := List.take_subset _ _ ha
      have h2 : a ∈ ((items.map (toRawArticle now fallbackId)).filter fun a =>
          a.title != "" && a.summary != "" && urlTruthy a.url) :=
        (List.perm_insertionSort newsGe _).mem_iff.mp h1
      exact (List.mem_filter.mp h2).2
    · simp only [getNewsArticles]
      exact (List.sorted_insertionSort newsGe _).sublist (List.take_sublist _ _)

/-- Witness for claim C10 at a concrete feed (one item is filtered out and
the remaining two are reordered newest-first). -/
theorem getNewsArticles_shape_witness :
    (getNewsArticles 0 "gen" (some sampleFeed)).length ≤ 10 ∧
    ((getNewsArticles 0 "gen" (some sampleFeed)).all fun a =>
      a.title != "" && a.summary != "" && urlTruthy a.url) = true ∧
    List.Sorted newsGe (getNewsArticles 0 "gen" (some sampleFeed)) :=
  getNewsArticles_shape 0 "gen" (some sampleFeed)

/-! ## Claim C5: TTL semantics of the tiered StockCache -/

/-- Claim C5.  For every tier of `StockCache` (stock, news, sentiment),
every key and every payload: a read at time `now` with
`now - cachedAt ≤ ttl` returns the payload written by the most recent
write for that key (writes overwrite unconditionally) and leaves the
cache unchanged; a read with `now - cachedAt > ttl` returns absent and
removes the entry. -/
theorem stockCache_ttl_read (c : StockCache) (sym tr : String)
    (sd : StockInfo) (nd : List NewsArticle) (se : SentimentData)
    (t0 now : Int) (ttl : Option Int) :
    (now - t0 ≤ stockEffTtl ttl →
      StockCache.get (StockCache.set c sym sd t0 ttl) sym now =
        (some sd, StockCache.set c sym sd t0 ttl)) ∧
    (stockEffTtl ttl < now - t0 →
      (StockCache.get (StockCache.set c sym sd t0 ttl) sym now).1 = none ∧
      alistLookup sym.toUpper
        (StockCache.get (StockCache.set c sym sd t0 ttl) sym
          now).2.stockCache = none) ∧
    (now - t0 ≤ NEWS_TTL →
      StockCache.getNews (StockCache.setNews c sym tr nd t0) sym tr now =
        (some nd, StockCache.setNews c sym tr nd t0)) ∧
    (NEWS_TTL < now - t0 →
      (StockCache.getNews (StockCache.setNews c sym tr nd t0) sym tr now).1 =
        none ∧
      alistLookup (cacheKey sym tr)
        (StockCache.getNews (StockCache.setNews c sym tr nd t0) sym tr
          now).2.newsCache = none) ∧
    (now - t0 ≤ SENTIMENT_TTL →
      StockCache.getSentiment (StockCache.setSentiment c sym tr se t0) sym tr
          now =
        (some se, StockCache.setSentiment c sym tr se t0)) ∧
    (SENTIMENT_TTL < now - t0 →
      (StockCache.getSentiment (StockCache.setSentiment c sym tr se t0) sym tr
          now).1 = none ∧
      alistLookup (cacheKey sym tr)
        (StockCache.getSentiment (StockCache.setSentiment c sym tr se t0) sym
          tr now).2.sentimentCache = none) := by
  refine ⟨?_, ?_, ?_, ?_, ?_, ?_⟩
  · intro h
    simp only [StockCache.get, StockCache.set, alistLookup_insert_self]
    rw [if_neg (by omega)]
  · intro h
    simp only [StockCache.get, StockCache.set, alistLookup_insert_self]
    rw [if_pos (by omega)]
    exact ⟨rfl, by simp [alistLookup_erase_self]⟩
  · intro h
    simp only [StockCache.getNews, StockCache.setNews, alistLookup_insert_self]
    rw [if_neg (by omega)]
  · intro h
    simp only [StockCache.getNews, StockCache.setNews, alistLookup_insert_self]
    rw [if_pos (by omega)]
    exact ⟨rfl, by simp [alistLookup_erase_self]⟩
  · intro h
    simp only [StockCache.getSentiment, StockCache.setSentiment,
      alistLookup_insert_self]
    rw [if_neg (by omega)]
  · intro h
    simp only [StockCache.getSentiment, StockCache.setSentiment,
      alistLookup_insert_self]
    rw [if_pos (by omega)]
    exact ⟨rfl, by simp [alistLookup_erase_self]⟩

/-- Witness for claim C5: fresh reads 1 ms after the write over the default
TTLs, expired reads 1 ms past each TTL. -/
theorem stockCache_ttl_read_witness :
    (StockCache.get (StockCache.set ⟨[], [], []⟩ "aapl" sampleStockInfo 0 none)
        "aapl" 1 =
      (some sampleStockInfo,
        StockCache.set ⟨[], [], []⟩ "aapl" sampleStockInfo 0 none)) ∧
    ((StockCache.get (StockCache.set ⟨[], [], []⟩ "aapl" sampleStockInfo 0 none)
        "aapl" 120001).1 = none ∧
      alistLookup ("aapl".toUpper)
        (StockCache.get (StockCache.set ⟨[], [], []⟩ "aapl" sampleStockInfo 0
          none) "aapl" 120001).2.stockCache = none) ∧
    (StockCache.getNews
        (StockCache.setNews ⟨[], [], []⟩ "aapl" "24h" [articleBullish] 0)
        "aapl" "24h" 1 =
      (some [articleBullish],
        StockCache.setNews ⟨[], [], []⟩ "aapl" "24h" [articleBullish] 0)) ∧
    ((StockCache.getNews
        (StockCache.setNews ⟨[], [], []⟩ "aapl" "24h" [articleBullish] 0)
        "aapl" "24h" 600001).1 = none ∧
      alistLookup (cacheKey "aapl" "24h")
        (StockCache.getNews
          (StockCache.setNews ⟨[], [], []⟩ "aapl" "24h" [articleBullish] 0)
          "aapl" "24h" 600001).2.newsCache = none) ∧
    (StockCache.getSentiment
        (StockCache.setSentiment ⟨[], [], []⟩ "aapl" "24h" sampleSentimentData 0)
        "aapl" "24h" 1 =
      (some sampleSentimentData,
        StockCache.setSentiment ⟨[], [], []⟩ "aapl" "24h" sampleSentimentData
          0)) ∧
    ((StockCache.getSentiment
        (StockCache.setSentiment ⟨[], [], []⟩ "aapl" "24h" sampleSentimentData 0)
        "aapl" "24h" 600001).1 = none ∧
      alistLookup (cacheKey "aapl" "24h")
        (StockCache.getSentiment
          (StockCache.setSentiment ⟨[], [], []⟩ "aapl" "24h" sampleSentimentData
            0) "aapl" "24h" 600001).2.sentimentCache = none) := by
  obtain ⟨f1, e1, f2, e2, f3, e3⟩ :=
    stockCache_ttl_read ⟨[], [], []⟩ "aapl" "24h" sampleStockInfo
      [articleBullish] sampleSentimentData 0 1 none
  obtain ⟨g1, x1, g2, x2, g3, x3⟩ :=
    stockCache_ttl_read ⟨[], [], []⟩ "aapl" "24h" sampleStockInfo
      [articleBullish] sampleSentimentData 0 120001 none
  obtain ⟨y1, z1, y2, z2, y3, z3⟩ :=
    stockCache_ttl_read ⟨[], [], []⟩ "aapl" "24h" sampleStockInfo
      [articleBullish] sampleSentimentData 0 600001 none
  refine ⟨f1 (by norm_num [stockEffTtl, STOCK_TTL]),
    x1 (by norm_num [stockEffTtl, STOCK_TTL]),
    f2 (by norm_num [NEWS_TTL]), z2 (by norm_num [NEWS_TTL]),
    f3 (by norm_num [SENTIMENT_TTL]), z3 (by norm_num [SENTIMENT_TTL])⟩

/-! ## Claims C2, C3, C8: the sentiment aggregator's numeric outputs -/

/-- Claim C2.  With an empty article list and no unexpired cached sentiment
(`cached = none`), `analyzeSentiment` returns overall = 0, positive = 0,
negative = 0, neutral = 1, an empty trend series, and a structured summary
whose content-present flag is false. -/
theorem analyzeSentiment_empty (symbol timeRange : String) (now : Int) :
    (analyzeSentiment symbol [] timeRange now none).overall = 0 ∧
    (analyzeSentiment symbol [] timeRange now none).positive = 0 ∧
    (analyzeSentiment symbol [] timeRange now none).negative = 0 ∧
    (analyzeSentiment symbol [] timeRange now none).neutral = 1 ∧
    (analyzeSentiment symbol [] timeRange now none).trendData = [] ∧
    (analyzeSentiment symbol [] timeRange now none).structuredSummary =
      some (fallbackStructuredSummary symbol) ∧
    (fallbackStructuredSummary symbol).hasContent = false :=
  ⟨rfl, rfl, rfl, rfl, rfl, rfl, rfl⟩

/-- Quotient of a count by a larger non-zero count lies in the unit
interval. -/
theorem count_fraction_bounds (k n : Nat) (hk : k ≤ n) (hn : n ≠ 0) :
    (0 : ℚ) ≤ (k : ℚ) / (n : ℚ) ∧ (k : ℚ) / (n : ℚ) ≤ 1 := by
  have hnpos : (0 : ℚ) < (n : ℚ) := by
    exact_mod_cast Nat.pos_of_ne_zero hn
  constructor
  · exact div_nonneg (by positivity) (le_of_lt hnpos)
  · rw [div_le_one hnpos]
    exact_mod_cast hk

/-- Claim C3.  For a non-empty article list with no unexpired cached
sentiment, each of the positive/negative/neutral fractions equals its
category count divided by the total count (bullish, bearish, and
neutral-impact-or-mixed respectively), and each lies in [0, 1]. -/
theorem analyzeSentiment_fractions (symbol timeRange : String) (now : Int)
    (news : List NewsArticle) (h : news ≠ []) :
    (analyzeSentiment symbol news timeRange now none).positive =
      ((news.filter fun a =>
        a.financialSentimentCategory == SentimentCategory.bullish).length : ℚ) /
        (news.length : ℚ) ∧
    (analyzeSentiment symbol news timeRange now none).negative =
      ((news.filter fun a =>
        a.financialSentimentCategory == SentimentCategory.bearish).length : ℚ) /
        (news.length : ℚ) ∧
    (analyzeSentiment symbol news timeRange now none).neutral =
      ((news.filter fun a =>
        a.financialSentimentCategory == SentimentCategory.neutralImpact ||
        a.financialSentimentCategory == SentimentCategory.mixed).length : ℚ) /
        (news.length : ℚ) ∧
    0 ≤ (analyzeSentiment symbol news timeRange now none).positive ∧
    (analyzeSentiment symbol news timeRange now none).positive ≤ 1 ∧
    0 ≤ (analyzeSentiment symbol news timeRange now none).negative ∧
    (analyzeSentiment symbol news timeRange now none).negative ≤ 1 ∧
    0 ≤ (analyzeSentiment symbol news timeRange now none).neutral ∧
    (analyzeSentiment symbol news timeRange now none).neutral ≤ 1 := by
  have hlen : ¬ news.length = 0 := by simpa using h
  have hp : (analyzeSentiment symbol news timeRange now none).positive =
      ((news.filter fun a =>
        a.financialSentimentCategory == SentimentCategory.bullish).length : ℚ) /
        (news.length : ℚ) := by
    simp [analyzeSentiment, hlen]
  have hn : (analyzeSentiment symbol news timeRange now none).negative =
      ((news.filter fun a =>
        a.financialSentimentCategory == SentimentCategory.bearish).length : ℚ) /
        (news.length : ℚ) := by
    simp [analyzeSentiment, hlen]
  have hu : (analyzeSentiment symbol news timeRange now none).neutral =
      ((news.filter fun a =>
        a.financialSentimentCategory == SentimentCategory.neutralImpact ||
        a.financialSentimentCategory == SentimentCategory.mixed).length : ℚ) /
        (news.length : ℚ) := by
    simp [analyzeSentiment, hlen]
  refine ⟨hp, hn, hu, ?_, ?_, ?_, ?_, ?_, ?_⟩
  · rw [hp]
    exact (count_fraction_bounds _ _ (List.length_filter_le _ _) hlen).1
  · rw [hp]
    exact (count_fraction_bounds _ _ (List.length_filter_le _ _) hlen).2
  · rw [hn]
    exact (count_fraction_bounds _ _ (List.length_filter_le _ _) hlen).1
  · rw [hn]
    exact (count_fraction_bounds _ _ (List.length_filter_le _ _) hlen).2
  · rw [hu]
    exact (count_fraction_bounds _ _ (List.length_filter_le _ _) hlen).1
  · rw [hu]
    exact (count_fraction_bounds _ _ (List.length_filter_le _ _) hlen).2

/-- Witness for claim C3 at the two scenario articles. -/
theorem analyzeSentiment_fractions_witness :
    (analyzeSentiment "AAPL" [articleBullish, articleBearish] "24h" 108000000
        none).positive =
      (([articleBullish, articleBearish].filter fun a =>
        a.financialSentimentCategory == SentimentCategory.bullish).length : ℚ) /
        (([articleBullish, articleBearish] : List NewsArticle).length : ℚ) ∧
    (analyzeSentiment "AAPL" [articleBullish, articleBearish] "24h" 108000000
        none).negative =
      (([articleBullish, articleBearish].filter fun a =>
        a.financialSentimentCategory == SentimentCategory.bearish).length : ℚ) /
        (([articleBullish, articleBearish] : List NewsArticle).length : ℚ) ∧
    (analyzeSentiment "AAPL" [articleBullish, articleBearish] "24h" 108000000
        none).neutral =
      (([articleBullish, articleBearish].filter fun a =>
        a.financialSentimentCategory == SentimentCategory.neutralImpact ||
        a.financialSentimentCategory == SentimentCategory.mixed).length : ℚ) /
        (([articleBullish, articleBearish] : List NewsArticle).length : ℚ) ∧
    0 ≤ (analyzeSentiment "AAPL" [articleBullish, articleBearish] "24h"
        108000000 none).positive ∧
    (analyzeSentiment "AAPL" [articleBullish, articleBearish] "24h" 108000000
        none).positive ≤ 1 ∧
    0 ≤ (analyzeSentiment "AAPL" [articleBullish, articleBearish] "24h"
        108000000 none).negative ∧
    (analyzeSentiment "AAPL" [articleBullish, articleBearish] "24h" 108000000
        none).negative ≤ 1 ∧
    0 ≤ (analyzeSentiment "AAPL" [articleBullish, articleBearish] "24h"
        108000000 none).neutral ∧
    (analyzeSentiment "AAPL" [articleBullish, articleBearish] "24h" 108000000
        none).neutral ≤ 1 :=
  analyzeSentiment_fractions "AAPL" "24h" 108000000
    [articleBullish, articleBearish] (by simp)

/-- Claim C8.  On the scenario input [bullish 0.6, bearish -0.4] with no
cached sentiment, `analyzeSentiment` returns overall = 0.1,
positive = 0.5, negative = 0.5, neutral = 0 (exact rational arithmetic). -/
theorem analyzeSentiment_scenario :
    (analyzeSentiment "AAPL" [articleBullish, articleBearish] "24h" 108000000
        none).overall = 1 / 10 ∧
    (analyzeSentiment "AAPL" [articleBullish, articleBearish] "24h" 108000000
        none).positive = 1 / 2 ∧
    (analyzeSentiment "AAPL" [articleBullish, articleBearish] "24h" 108000000
        none).negative = 1 / 2 ∧
    (analyzeSentiment "AAPL" [articleBullish, articleBearish] "24h" 108000000
        none).neutral = 0 := by
  refine ⟨?_, ?_, ?_, ?_⟩ <;>
    (simp [analyzeSentiment, articleBullish, articleBearish]; try norm_num)

/-! ## Claim C6: 24h trend bucketing -/

/-- The rational-floor bucket index is the floor division of the article's
age in ms by the 3-hour bucket width. -/
theorem bucketIndex_eq (now published : Int) :
    bucketIndex now published = (now - published) / 10800000 := by
  have h1 : (((now - published : Int) : ℚ) / 3600000) / 3 =
      ((now - published : Int) : ℚ) / ((10800000 : ℕ) : ℚ) := by
    rw [div_div]
    norm_num
  rw [bucketIndex, h1, Rat.floor_intCast_div_natCast]
  norm_num

/-- Claim C6, counterexample.  The scenario articles are published exactly
one hour apart, yet for the 24h range they are placed in different 3-hour
buckets (the aggregator emits two distinct trend points), because their
ages straddle a bucket boundary: ages 2.5 h and 3.5 h give group indices
0 and 1.  This refutes the claim that any two articles one hour apart land
in the same bucket. -/
theorem trend_bucket_one_hour_counterexample :
    articleBullish.publishedAt - articleBearish.publishedAt = 3600000 ∧
    periodStartEpoch "24h" 108000000 articleBullish.publishedAt ≠
      periodStartEpoch "24h" 108000000 articleBearish.publishedAt ∧
    (analyzeSentiment "AAPL" [articleBullish, articleBearish] "24h" 108000000
        none).trendData.length = 2 := by
  refine ⟨by decide, ?_, ?_⟩
  · simp [periodStartEpoch, periodStartEpoch24, bucketIndex_eq, dayStartEpoch,
      hourOfDay, articleBullish, articleBearish]
  · simp [analyzeSentiment, buildTrendData, buildTimeGroups, periodStartEpoch,
      bucketIndex_eq, periodStartEpoch24, dayStartEpoch, hourOfDay, addToGroup,
      keyLe, articleBullish, articleBearish]

/-- Claim C6, amended.  In the 24h-range bucketing of `analyzeSentiment`,
two articles published one hour apart fall in the same or in adjacent
3-hour buckets (the same bucket exactly when no bucket boundary lies
between their ages), two articles published four hours apart always fall
in different buckets, and bucket start epochs identify buckets: two
articles share a trend bucket if and only if they have the same group
index. -/
theorem trend_bucket_amended (now t g1 g2 : Int) :
    (bucketIndex now (t - 3600000) = bucketIndex now t ∨
     bucketIndex now (t - 3600000) = bucketIndex now t + 1) ∧
    bucketIndex now (t - 14400000) ≠ bucketIndex now t ∧
    (periodStartEpoch24 now g1 = periodStartEpoch24 now g2 ↔ g1 = g2) := by
  rw [bucketIndex_eq, bucketIndex_eq, bucketIndex_eq]
  refine ⟨?_, ?_, ?_⟩
  · omega
  · omega
  · unfold periodStartEpoch24 dayStartEpoch hourOfDay
    constructor
    · intro h
      omega
    · intro h
      omega

/-- Witness for the amended claim C6 at concrete times. -/
theorem trend_bucket_amended_witness :
    (bucketIndex 108000000 (99000000 - 3600000) = bucketIndex 108000000 99000000 ∨
     bucketIndex 108000000 (99000000 - 3600000) =
       bucketIndex 108000000 99000000 + 1) ∧
    bucketIndex 108000000 (99000000 - 14400000) ≠
      bucketIndex 108000000 99000000 ∧
    (periodStartEpoch24 108000000 0 = periodStartEpoch24 108000000 1 ↔
      (0 : Int) = 1) :=
  trend_bucket_amended 108000000 99000000 0 1
